import Mathlib

/-!
Shallow embedding of the core of the net_sdk networking SDK, together with
theorems settling the specification claims about it.

The embedding follows the Rust source:
  - `src/types/error.rs`            : `NetResultStatus`
  - `src/types/config.rs`           : `NetConfig`, `NetConfig::change_addr`
  - `src/types/native/request.rs`   : `NetHttpRetryConfig` and its default
  - `src/types/native/c_tyes.rs`    : `NetRequestHttp::from_c` retry selection
  - `src/utils/buffer.rs`           : `StreamBuffer::is_json`, `StreamBuffer::add`
  - `src/client/http/native.rs`     : `AutoSendRequest::connect`, the retry
                                      loop of `HttpClient::request`
  - `src/transport/native/http.rs`  : the alternate-host routing of
                                      `HttpTransport::do_request`
  - `src/transport/native/grpc.rs`  : `GrpcTransport::stream` ordering,
                                      `GrpcTransport::unsubscribe`
  - `src/connector/native.rs`       : instance registry, `close_all`,
                                      transport-id allocation, `update_config`

Network and library effects (socket I/O, TLS handshakes, serde_json, tokio)
are external collaborators; they enter the embedding as explicit oracle
parameters (outcome functions), while all control flow around them is
translated from the source.
-/

namespace NetSdk

/-- Status codes of the SDK, from `src/types/error.rs` (`NetResultStatus`).
The constructor spelling `Http2ConctionFailed` is the spelling in the
source. -/
inductive NetResultStatus
  | OK
  | InvalidUrl
  | TlsError
  | ConnectionError
  | TorNetError
  | SocketError
  | Http2ConctionFailed
  | InvalidRequestParameters
  | InvalidConfigParameters
  | TransportNotFound
  | RequestTimeout
  | InvalidTorConfig
  | TorInitializationFailed
  | TorClientNotInitialized
  | InternalError
  | InstanceDoesNotExist
  deriving DecidableEq, Repr

/-- Numeric (u8) values of the status codes, from the `#[repr(u8)]`
discriminants in `src/types/error.rs`. -/
def NetResultStatus.code : NetResultStatus → Nat
  | .OK => 100
  | .InvalidUrl => 1
  | .TlsError => 2
  | .ConnectionError => 3
  | .TorNetError => 4
  | .SocketError => 10
  | .Http2ConctionFailed => 13
  | .InvalidRequestParameters => 15
  | .InvalidConfigParameters => 16
  | .TransportNotFound => 17
  | .RequestTimeout => 22
  | .InvalidTorConfig => 23
  | .TorInitializationFailed => 24
  | .TorClientNotInitialized => 26
  | .InternalError => 27
  | .InstanceDoesNotExist => 28

/-- Retry configuration of one HTTP request, from
`src/types/native/request.rs` (`NetHttpRetryConfig`): `max_retries: u8`,
`retry_status: &[u16]`, `retry_delay: u32` (milliseconds). -/
structure NetHttpRetryConfig where
  max_retries : Nat
  retry_status : List Nat
  retry_delay : Nat
  deriving DecidableEq, Repr

/-- Default retry configuration, from `NetHttpRetryConfig::default()` in
`src/types/native/request.rs`. -/
def NetHttpRetryConfig.default : NetHttpRetryConfig :=
  { max_retries := 1, retry_status := [], retry_delay := 0 }

/-- Retry-configuration selection of `NetRequestHttp::from_c` in
`src/types/native/c_tyes.rs`: a null `retry_config` pointer (here `none`)
yields `NetHttpRetryConfig::default()`, a non-null pointer is copied
field for field by `NetHttpRetryConfig::from_c`. -/
def NetRequestHttp.retryFromC (c : Option NetHttpRetryConfig) : NetHttpRetryConfig :=
  match c with
  | none => NetHttpRetryConfig.default
  | some cfg => cfg

/-- Outcome of one `sender.send(req.clone()).await` in the retry loop of
`HttpClient::request` (`src/client/http/native.rs`): either a response with
a status code, or a transport I/O error. -/
inductive SendOutcome
  | ok (status : Nat)
  | err
  deriving DecidableEq, Repr

/-- Observable events of one run of the retry loop: a network send attempt
(with its attempt index), a reconnect (`E::connect`), or a
`sleep(retry_delay)`. -/
inductive HttpEvent
  | send (attempt : Nat)
  | reconnect
  | sleep
  deriving DecidableEq, Repr

/-- Result of `HttpClient::request`: a response (its status code; body
reading is not modelled) or a failure status. -/
inductive HttpResult
  | response (status : Nat)
  | failure (e : NetResultStatus)
  deriving DecidableEq, Repr

/-- Whether an event is a network send attempt. -/
def HttpEvent.isSend : HttpEvent → Bool
  | .send _ => true
  | _ => false

/-- Number of network send attempts in a trace. -/
def sendCount (tr : List HttpEvent) : Nat :=
  (tr.filter HttpEvent.isSend).length

/-- Retry loop of `HttpClient::request` (`src/client/http/native.rs`,
`for attempt in 0..=retry_config.max_retries`), as a function of two
oracles: `sendAt n` is the outcome of the send at attempt `n`, and
`reconnectAt n` is the outcome of the `E::connect` rebuild after a failed
attempt `n` (`none` means the reconnect succeeded, `some e` means it
failed with status `e`, which the `?` operator propagates).  The `fuel`
argument counts the loop iterations that remain; the loop is entered with
`fuel = max_retries + 1` and attempt `0`.  Returns the result together
with the trace of emitted events.

Body of one iteration, from the source:
  - `Ok(resp)` whose status is in `retry_status` while
    `attempt < max_retries`: sleep, continue;
  - `Ok(resp)` otherwise: return the response;
  - `Err(_)` with `attempt >= max_retries`: return `ConnectionError`;
  - `Err(_)` otherwise: rebuild the sender (propagating a rebuild
    failure), sleep, continue.
The `Err(ConnectionError)` after the loop is reached only when the fuel
runs out. -/
def httpRequestLoop (cfg : NetHttpRetryConfig) (sendAt : Nat → SendOutcome)
    (reconnectAt : Nat → Option NetResultStatus) :
    Nat → Nat → HttpResult × List HttpEvent
  | 0, _ => (.failure .ConnectionError, [])
  | fuel + 1, attempt =>
    match sendAt attempt with
    | .ok status =>
      if cfg.retry_status.contains status ∧ attempt < cfg.max_retries then
        ((httpRequestLoop cfg sendAt reconnectAt fuel (attempt + 1)).1,
         .send attempt :: .sleep ::
           (httpRequestLoop cfg sendAt reconnectAt fuel (attempt + 1)).2)
      else
        (.response status, [.send attempt])
    | .err =>
      if cfg.max_retries ≤ attempt then
        (.failure .ConnectionError, [.send attempt])
      else
        match reconnectAt attempt with
        | some e => (.failure e, [.send attempt, .reconnect])
        | none =>
          ((httpRequestLoop cfg sendAt reconnectAt fuel (attempt + 1)).1,
           .send attempt :: .reconnect :: .sleep ::
             (httpRequestLoop cfg sendAt reconnectAt fuel (attempt + 1)).2)

/-- One full run of the retry loop of `HttpClient::request`, starting at
attempt `0` with the `max_retries + 1` iterations of
`for attempt in 0..=max_retries`. -/
def httpRequest (cfg : NetHttpRetryConfig) (sendAt : Nat → SendOutcome)
    (reconnectAt : Nat → Option NetResultStatus) : HttpResult × List HttpEvent :=
  httpRequestLoop cfg sendAt reconnectAt (cfg.max_retries + 1) 0

/-- Every `sleep` event in the trace is eventually followed by a `send`
event: sleeps happen only between two attempts, never after the last
one. -/
def sleepsBetweenSends : List HttpEvent → Bool
  | [] => true
  | .sleep :: rest => rest.any HttpEvent.isSend && sleepsBetweenSends rest
  | _ :: rest => sleepsBetweenSends rest

/-! ## Stream buffer (`src/utils/buffer.rs`)

Bytes are modelled as natural numbers (the `u8` values).  The external
JSON parser (`serde_json::from_str::<Value>` applied to the UTF-8 decoding
of the buffer) is an oracle parameter `jsonOk`; the CBOR conversion of the
`CborJson` branch is the oracle `jsonToCbor` (returning `none` where any of
the fallible conversions in that branch fails). -/

/-- Per-transport stream encoding, from `src/utils/buffer.rs`
(`StreamEncoding`). -/
inductive StreamEncoding
  | Json
  | Raw
  | CborJson
  deriving DecidableEq, Repr

/-- Stream reassembly buffer, from `src/utils/buffer.rs` (`StreamBuffer`). -/
structure StreamBuffer where
  encoding : StreamEncoding
  buffer : List Nat
  deriving DecidableEq, Repr

/-- Incremental JSON detection, from `StreamBuffer::is_json` in
`src/utils/buffer.rs`: each byte of the argument is pushed onto
`self.buffer` in turn; after every pushed byte the whole accumulated
buffer is offered to the JSON parser; on the first success the buffer is
returned and cleared, and the remaining bytes of the argument are not
processed; if no parse succeeds the bytes stay accumulated and nothing is
returned.  The pair holds the emitted message (if any) and the buffer
contents afterwards. -/
def StreamBuffer.is_json (jsonOk : List Nat → Bool) :
    List Nat → List Nat → Option (List Nat) × List Nat
  | buffer, [] => (none, buffer)
  | buffer, byte :: rest =>
    if jsonOk (buffer ++ [byte]) then
      (some (buffer ++ [byte]), [])
    else
      StreamBuffer.is_json jsonOk (buffer ++ [byte]) rest

/-- Chunk intake, from `StreamBuffer::add` in `src/utils/buffer.rs`:
`Raw` emits the chunk verbatim, `Json` runs `is_json`, `CborJson` runs
`is_json` and converts a successful emission to CBOR (emitting nothing if
the conversion fails, the buffer having already been cleared). -/
def StreamBuffer.add (jsonOk : List Nat → Bool) (jsonToCbor : List Nat → Option (List Nat)) :
    StreamBuffer → List Nat → Option (List Nat) × StreamBuffer
  | sb, buf =>
    match sb.encoding with
    | .Raw => (some buf, sb)
    | .Json =>
      ((StreamBuffer.is_json jsonOk sb.buffer buf).1,
       { encoding := sb.encoding,
         buffer := (StreamBuffer.is_json jsonOk sb.buffer buf).2 })
    | .CborJson =>
      match (StreamBuffer.is_json jsonOk sb.buffer buf).1 with
      | some jsonBytes =>
        (jsonToCbor jsonBytes,
         { encoding := sb.encoding,
           buffer := (StreamBuffer.is_json jsonOk sb.buffer buf).2 })
      | none =>
        (none,
         { encoding := sb.encoding,
           buffer := (StreamBuffer.is_json jsonOk sb.buffer buf).2 })

/-- Modelled from the spec: the Json mode of the stream buffer as the
specification describes it, for comparison with `StreamBuffer.add` - the
buffer "assembles a byte buffer across chunks; after every appended chunk,
attempts to decode the accumulated bytes as one UTF-8 JSON document. If
parsing succeeds, emit the buffer as a single message and reset; else keep
accumulating." -/
def addJsonSpec (jsonOk : List Nat → Bool) (sb : StreamBuffer) (chunk : List Nat) :
    Option (List Nat) × StreamBuffer :=
  if jsonOk (sb.buffer ++ chunk) then
    (some (sb.buffer ++ chunk), { encoding := sb.encoding, buffer := [] })
  else
    (none, { encoding := sb.encoding, buffer := sb.buffer ++ chunk })

/-- Whether a byte is an ASCII digit. -/
def isAsciiDigit (b : Nat) : Bool := 48 ≤ b && b ≤ 57

/-- Modelled from the spec: the verdict of the external JSON parser
(`serde_json::from_str::<Value>` on the UTF-8 decoding of the bytes),
restricted to inputs that consist only of ASCII digits.  On such inputs
serde_json succeeds exactly on nonempty digit strings without a leading
zero (JSON integer literals; a lone `0` byte, value 48, is also valid).
Used only to instantiate the `jsonOk` oracle at concrete inputs. -/
def digitJsonDoc : List Nat → Bool
  | [] => false
  | b :: rest =>
    isAsciiDigit b && rest.all isAsciiDigit && !(b == 48 && !rest.isEmpty)

/-! ## Configuration and alternate-host routing
(`src/types/config.rs`, `src/transport/native/http.rs`) -/

/-- Decomposed address of a transport, from `src/types/mod.rs`
(`AddressInfo`). -/
structure AddressInfo where
  host : String
  port : Nat
  is_tls : Bool
  url : String
  deriving DecidableEq, Repr

/-- Network mode, from `src/types/config.rs` (`NetMode`). -/
inductive NetMode
  | Tor
  | Clearnet
  deriving DecidableEq, Repr

/-- HTTP protocol preference, from `src/types/config.rs`
(`NetHttpProtocol`). -/
inductive NetHttpProtocol
  | Http1
  | Http2
  deriving DecidableEq, Repr

/-- Transport protocol, from `src/types/config.rs` (`NetProtocol`). -/
inductive NetProtocol
  | Http
  | Grpc
  | WebSocket
  | Socket
  deriving DecidableEq, Repr

/-- TLS verification mode, from `src/types/config.rs` (`TlsMode`). -/
inductive TlsMode
  | Safe
  | Dangerous
  deriving DecidableEq, Repr

/-- One HTTP header, from `src/types/config.rs` (`NetHttpHeader`). -/
structure NetHttpHeader where
  key : String
  value : String
  deriving DecidableEq, Repr

/-- HTTP sub-configuration, from `src/types/config.rs` (`NetHttpConfig`):
default headers, protocol preference, and the `global_client` flag parsed
from the foreign boundary. -/
structure NetHttpConfig where
  headers : List NetHttpHeader
  protocol : Option NetHttpProtocol
  global_client : Bool
  deriving DecidableEq, Repr

/-- Tor client directories, from `src/types/config.rs`
(`NetTorClientConfig`). -/
structure NetTorClientConfig where
  cache_dir : String
  state_dir : String
  deriving DecidableEq, Repr

/-- Resolved transport configuration, from `src/types/config.rs`
(`NetConfig`). -/
structure NetConfig where
  addr : AddressInfo
  mode : NetMode
  http : NetHttpConfig
  protocol : NetProtocol
  tls_mode : TlsMode
  tor_config : Option NetTorClientConfig
  encoding : StreamEncoding
  deriving DecidableEq, Repr

/-- Address rebinding, from `NetConfig::change_addr` in
`src/types/config.rs`: builds a new configuration with the new address and
every other field copied; the receiver is not mutated. -/
def NetConfig.change_addr (c : NetConfig) (new_addr : AddressInfo) : NetConfig :=
  { addr := new_addr
    mode := c.mode
    http := c.http
    protocol := c.protocol
    tls_mode := c.tls_mode
    tor_config := c.tor_config
    encoding := c.encoding }

/-- How `HttpTransport::do_request` sends a request: through an ephemeral
client built from the given configuration, or through the stored client. -/
inductive HttpSendPath
  | ephemeral (cfg : NetConfig)
  | stored
  deriving DecidableEq, Repr

/-- Alternate-host routing of `HttpTransport::do_request` in
`src/transport/native/http.rs`: when the host of the parsed request URL
differs from `config.addr.host`, an ephemeral client is built from
`config.change_addr(addr)` and the request is sent through it (the stored
configuration is left untouched); otherwise the stored client is used. -/
def HttpTransport.do_request_route (config : NetConfig) (addr : AddressInfo) : HttpSendPath :=
  if addr.host ≠ config.addr.host then
    .ephemeral (config.change_addr addr)
  else
    .stored

/-- Routing decisions in the vocabulary of the specification, which also
has a rejection outcome. -/
inductive HttpSendPathSpec
  | reject
  | ephemeral (cfg : NetConfig)
  | stored
  deriving DecidableEq, Repr

/-- Modelled from the spec: the alternate-host policy the specification
prescribes - "reject requests whose URL host differs from the configured
host with MismatchHttpUrl" by default, an ephemeral client "only when
explicitly opted-in via a global_client flag".  `reject` stands for the
`MismatchHttpUrl` rejection (no such status exists in
`src/types/error.rs`). -/
def do_request_route_spec (config : NetConfig) (addr : AddressInfo) : HttpSendPathSpec :=
  if addr.host ≠ config.addr.host then
    if config.http.global_client then .ephemeral (config.change_addr addr)
    else .reject
  else
    .stored

/-- Embedding of the implemented routing outcomes into the specification
vocabulary. -/
def HttpSendPath.toSpec : HttpSendPath → HttpSendPathSpec
  | .ephemeral c => .ephemeral c
  | .stored => .stored

/-- A concrete configured address. -/
def addrA : AddressInfo :=
  { host := "a.example", port := 443, is_tls := true, url := "https://a.example/" }

/-- A concrete request address with a different host. -/
def addrB : AddressInfo :=
  { host := "b.example", port := 443, is_tls := true, url := "https://b.example/" }

/-- A concrete HTTP transport configuration for `addrA`, with
`global_client` not set. -/
def configA : NetConfig :=
  { addr := addrA
    mode := .Clearnet
    http := { headers := [], protocol := none, global_client := false }
    protocol := .Http
    tls_mode := .Safe
    tor_config := none
    encoding := .Raw }

/-! ## HTTP connection establishment (`src/client/http/native.rs`) -/

/-- The kind of sender `AutoSendRequest::connect` produced. -/
inductive AutoSender
  | http1
  | http2
  deriving DecidableEq, Repr

/-- Byte string of the ALPN identifier `"h2"`. -/
def h2Alpn : List Nat := [104, 50]

/-- Connection establishment, from `AutoSendRequest::connect` in
`src/client/http/native.rs`.  `streamAlpn` is the outcome of
`T::connect(config)` together with the `alpn_protocol()` of the produced
stream (`none` for the non-TLS streams, which return `None` in
`src/stream/native.rs`); `h2Handshake` and `h1Handshake` are the outcomes
of the subsequent `http2::SendRequest::connect` and
`http1::SendRequest::connect` calls.  Control flow from the source:
  - preference `Http2`: if the ALPN is not `"h2"`, fail
    `Http2ConctionFailed` before any handshake; otherwise run the HTTP/2
    handshake, mapping failure to `ConnectionError`;
  - preference `Http1`: run the HTTP/1 handshake, mapping failure to
    `ConnectionError`;
  - no preference: if the ALPN is `"h2"`, try the HTTP/2 handshake and on
    failure fall back to HTTP/1; otherwise HTTP/1 directly. -/
def AutoSendRequest.connect
    (streamAlpn : Except NetResultStatus (Option (List Nat)))
    (h2Handshake : Except NetResultStatus Unit)
    (h1Handshake : Except NetResultStatus Unit)
    (protocol_pref : Option NetHttpProtocol) : Except NetResultStatus AutoSender :=
  match streamAlpn with
  | .error e => .error e
  | .ok alpn =>
    match protocol_pref with
    | some .Http2 =>
      if alpn ≠ some h2Alpn then .error .Http2ConctionFailed
      else
        match h2Handshake with
        | .ok _ => .ok .http2
        | .error _ => .error .ConnectionError
    | some .Http1 =>
      match h1Handshake with
      | .ok _ => .ok .http1
      | .error _ => .error .ConnectionError
    | none =>
      if alpn = some h2Alpn then
        match h2Handshake with
        | .ok _ => .ok .http2
        | .error _ =>
          match h1Handshake with
          | .ok _ => .ok .http1
          | .error _ => .error .ConnectionError
      else
        match h1Handshake with
        | .ok _ => .ok .http1
        | .error _ => .error .ConnectionError

/-- Entry of `HttpClient::request` in `src/client/http/native.rs`:
`conneect_inner` (which establishes the connection when no sender is
stored) runs before the retry loop, and its failure is propagated by `?`
before any request is sent. -/
def HttpClient.sendWith (connection : Except NetResultStatus AutoSender)
    (cfg : NetHttpRetryConfig) (sendAt : Nat → SendOutcome)
    (reconnectAt : Nat → Option NetResultStatus) : HttpResult × List HttpEvent :=
  match connection with
  | .error e => (.failure e, [])
  | .ok _ => httpRequest cfg sendAt reconnectAt

/-! ## Responses (`src/types/response.rs`) -/

/-- gRPC response payloads, from `src/types/response.rs`
(`NetGrpcResponse`): unary reply bytes, the synchronous stream id, or the
unsubscribe echo. -/
inductive NetGrpcResponse
  | Unary (data : List Nat)
  | StreamId (id : Int)
  | Unsubscribe (id : Int)
  deriving DecidableEq, Repr

/-- Asynchronous stream events, from `src/types/response.rs`
(`NetStreamResponse`): data, close, or error, each with an optional
stream id. -/
inductive NetStreamResponse
  | Data (id : Option Int) (data : List Nat)
  | Close (id : Option Int)
  | Error (id : Option Int) (status : NetResultStatus)
  deriving DecidableEq, Repr

/-- Response payloads, from `src/types/response.rs` (`NetResponseKind`). -/
inductive NetResponseKind
  | Socket
  | Grpc (g : NetGrpcResponse)
  | Http (status : Nat) (body : List Nat)
  | Stream (s : NetStreamResponse)
  | ResponseError (e : NetResultStatus)
  | TransportClosed
  | TorInited (inited : Bool)
  deriving DecidableEq, Repr

/-- A tagged response, from `src/types/response.rs` (`NetResponse`). -/
structure NetResponse where
  transport_id : Nat
  request_id : Nat
  response : NetResponseKind
  deriving DecidableEq, Repr

/-! ## gRPC transport (`src/transport/native/grpc.rs`) -/

/-- A live stream subscription, from `GrpcStreamHandle` in
`src/client/native.rs`: a broadcast receiver position plus a one-shot
cancel sender.  Only the identity of the handle matters here. -/
structure GrpcStreamHandle where
  token : Nat
  deriving DecidableEq, Repr

/-- Lookup in the per-transport stream-handle map (the
`HashMap<i32, GrpcStreamHandle>` behind `listeners` in
`src/transport/native/grpc.rs`), modelled as an association list. -/
def lookupListener (listeners : List (Int × GrpcStreamHandle)) (id : Int) :
    Option GrpcStreamHandle :=
  (listeners.find? (fun kv => kv.1 = id)).map (fun kv => kv.2)

/-- Removal from the stream-handle map (`listeners.remove(&data.id)`). -/
def removeListener (listeners : List (Int × GrpcStreamHandle)) (id : Int) :
    List (Int × GrpcStreamHandle) :=
  listeners.filter (fun kv => kv.1 ≠ id)

/-- Result of one `GrpcTransport::unsubscribe` call: the map afterwards,
the handle that was cancelled (if one was found), and the value returned
to the caller. -/
structure UnsubscribeRun where
  listeners : List (Int × GrpcStreamHandle)
  cancelled : Option GrpcStreamHandle
  response : Except NetResultStatus NetResponseKind
  deriving Repr

/-- Unsubscription, from `GrpcTransport::unsubscribe` in
`src/transport/native/grpc.rs`: remove the handle for the requested id
from the map, cancel it when one was present, and return
`Ok(Grpc(Unsubscribe { id }))` unconditionally, echoing the requested
id. -/
def GrpcTransport.unsubscribe (listeners : List (Int × GrpcStreamHandle)) (id : Int) :
    UnsubscribeRun :=
  { listeners := removeListener listeners id
    cancelled := lookupListener listeners id
    response := .ok (.Grpc (.Unsubscribe id)) }

/-- The observable actions around one `GrpcTransport::stream` call: the
main task spawns the fan-out task, registers the handle, and has the
`StreamId` reply delivered; the fan-out task delivers a `Data` event. -/
inductive GrpcEvent
  | spawnFanout
  | registerHandle
  | replyStreamId
  | emitData
  deriving DecidableEq, Repr

/-- Program order of the main task of `GrpcTransport::stream` in
`src/transport/native/grpc.rs`: `tokio::spawn` of the fan-out task comes
first, then the handle is inserted into `listeners`, and only then does
`do_request` return the `StreamId` reply for delivery. -/
def streamMainActions : List GrpcEvent :=
  [.spawnFanout, .registerHandle, .replyStreamId]

/-- Event `a` occurs strictly before event `b` in the trace `t`. -/
def eventsBefore (t : List GrpcEvent) (a b : GrpcEvent) : Prop :=
  t.indexOf a < t.indexOf b

instance (t : List GrpcEvent) (a b : GrpcEvent) : Decidable (eventsBefore t a b) :=
  inferInstanceAs (Decidable (t.indexOf a < t.indexOf b))

/-- A possible interleaving of the main task of `GrpcTransport::stream`
with its fan-out task, when the underlying gRPC reader has a message ready
(so the fan-out can publish as soon as it runs): the trace contains each
action once, the main actions occur in their program order
`streamMainActions`, and the fan-out `Data` delivery occurs after the task
is spawned.  Nothing in the source orders the `Data` delivery after the
registration or after the reply delivery. -/
def validStreamTrace (t : List GrpcEvent) : Prop :=
  t.Perm (streamMainActions ++ [.emitData]) ∧
  List.Pairwise (eventsBefore t) streamMainActions ∧
  eventsBefore t .spawnFanout .emitData

/-! ## Instance registry (`src/connector/native.rs`) -/

/-- State of one `DartTransporter` instance: the callback slot (the
`Arc<RwLock<Option<DartCallbackC>>>`; callbacks are modelled by their
identity) and the owned transports (modelled by their ids). -/
structure RegState where
  callback : Option Nat
  transports : List Nat
  deriving DecidableEq, Repr

/-- Atomic actions on one instance.  `closeAll` is
`DartTransporter::close_all`; `deliver` is the delivery point of any
spawned task (`send_request`, `update_config`, `close`, or a stream
fan-out callback), which reads the callback slot and invokes the callback
while still holding the read lock.  Because every invocation happens under
the read lock and `close_all` takes the write lock, each action is atomic
with respect to the others. -/
inductive RegAction
  | closeAll
  | deliver (resp : NetResponse)

/-- One atomic action, from `src/connector/native.rs`: `close_all` first
sets the callback slot to `None` (`self.callback.write()...take()`), then
drains the transport table and closes the drained transports without
emitting anything; a delivery reads the slot, invokes the callback when it
holds one, and silently drops the response when it is `None`.  Returns the
new state and the invocations performed (callback identity paired with the
response). -/
def regStep (s : RegState) : RegAction → RegState × List (Nat × NetResponse)
  | .closeAll => ({ callback := none, transports := [] }, [])
  | .deliver r =>
    match s.callback with
    | some cb => (s, [(cb, r)])
    | none => (s, [])

/-- A sequence of atomic actions on one instance, collecting every
callback invocation. -/
def regRun (s : RegState) : List RegAction → RegState × List (Nat × NetResponse)
  | [] => (s, [])
  | a :: rest =>
    ((regRun (regStep s a).1 rest).1,
     (regStep s a).2 ++ (regRun (regStep s a).1 rest).2)

/-! ## Transport-id allocation (`src/connector/native.rs`) -/

/-- Largest `u32` value. -/
def U32_MAX : Nat := 4294967295

/-- Advance of the per-instance `next_id` counter in
`DartTransporter::create_transporter`:
`*id_guard = id_guard.checked_add(1).unwrap_or(258)`, so the counter
increments until `u32::MAX` and wraps back to `258` when the increment
would overflow. -/
def allocStep (id : Nat) : Nat :=
  if id + 1 ≤ U32_MAX then id + 1 else 258

/-- Transport id returned by the `n`-th `create_transporter` call
(0-indexed) of one instance: `DartTransporter::new` initializes `next_id`
to `258`, and each call returns the current counter and advances it by
`allocStep`. -/
def transportIdAt : Nat → Nat
  | 0 => 258
  | n + 1 => allocStep (transportIdAt n)

/-- Number of distinct values the transport-id counter ranges over
(`258` up to `u32::MAX`). -/
def transportIdPeriod : Nat := 4294967038

/-! ## Tor configuration updates (`src/connector/native.rs`) -/

/-- Request kinds, from `src/types/native/request.rs` (`NetRequestKind`).
The payloads of the `Socket`, `Grpc` and `Http` variants play no role in
`update_config`, which matches only `InitTor` and `TorInited` and treats
everything else uniformly. -/
inductive NetRequestKind
  | Socket
  | Grpc
  | Http
  | InitTor (cache_dir state_dir : String)
  | TorInited
  deriving DecidableEq, Repr

/-- A parsed request, from `src/types/native/request.rs` (`NetRequest`). -/
structure NetRequest where
  transport_id : Nat
  id : Nat
  timeout : Nat
  kind : NetRequestKind
  deriving DecidableEq, Repr

/-- Everything observable about one `DartTransporter::update_config`
call: the synchronous return value, the result of the spawned task
(`none` when no task was spawned because parsing failed), and the callback
invocations the task performed. -/
structure UpdateConfigRun where
  sync : Except NetResultStatus Unit
  task : Option (Except NetResultStatus Unit)
  emissions : List (Nat × NetResponse)
  deriving Repr

/-- Configuration update, from `DartTransporter::update_config` in
`src/connector/native.rs`.  `parsed` is the outcome of the null check and
`NetRequest::from_c` (`none` for a null pointer or a parse failure, in
which case the error is returned synchronously and nothing is spawned).
On success a task is spawned and `Ok(())` is returned immediately.  The
task computes a response: `InitTor` runs `init_tor_config` (outcome
oracle `torInit`; success yields `TorInited(true)`, failure a
`ResponseError`), `TorInited` queries `tor_inited()` (oracle `torInited`),
and any other kind makes the task return
`Err(InvalidRequestParameters)` before building a response, so nothing is
delivered and the error is discarded by the runtime.  A computed response
is delivered through the callback slot if it holds a callback. -/
def DartTransporter.update_config (torInit : Except NetResultStatus Unit)
    (torInited : Bool) (callbackSlot : Option Nat)
    (parsed : Option NetRequest) : UpdateConfigRun :=
  match parsed with
  | none =>
    { sync := .error .InvalidRequestParameters, task := none, emissions := [] }
  | some request =>
    let taskResponse : Except NetResultStatus NetResponseKind :=
      match request.kind with
      | .InitTor _ _ =>
        match torInit with
        | .ok _ => .ok (.TorInited true)
        | .error e => .ok (.ResponseError e)
      | .TorInited => .ok (.TorInited torInited)
      | _ => .error .InvalidRequestParameters
    match taskResponse with
    | .error e => { sync := .ok (), task := some (.error e), emissions := [] }
    | .ok response =>
      let resp : NetResponse :=
        { transport_id := request.transport_id
          request_id := request.id
          response := response }
      match callbackSlot with
      | some cb => { sync := .ok (), task := some (.ok ()), emissions := [(cb, resp)] }
      | none => { sync := .ok (), task := some (.ok ()), emissions := [] }

/-- Status byte handed back over the foreign boundary by
`dart_update_config` in `src/connector/native.rs`: `OK` for a successful
synchronous return, the error code otherwise. -/
def dart_update_config_status (sync : Except NetResultStatus Unit) : Nat :=
  match sync with
  | .ok _ => NetResultStatus.OK.code
  | .error e => e.code

/-! ## Theorems -/

/-- Looking up an id in the map after removing that id finds nothing. -/
theorem lookupListener_removeListener (ls : List (Int × GrpcStreamHandle)) (id : Int) :
    lookupListener (removeListener ls id) id = none := by
  induction ls with
  | nil => rfl
  | cons kv rest ih =>
    by_cases h : kv.1 = id
    · simpa [removeListener, List.filter_cons, h] using ih
    · simp [removeListener, lookupListener, List.filter_cons, List.find?_cons, h] at ih ⊢

/-- Claim C8: gRPC unsubscribe is idempotent.  For every stream-handle map
and every stream id, `GrpcTransport::unsubscribe` returns the successful
`Grpc(Unsubscribe)` response echoing the requested id; calling it again on
the resulting map returns the same response; the id is absent from the
resulting map; when the id was unknown nothing is cancelled, and when it
was live exactly that handle is cancelled. -/
theorem grpc_unsubscribe_idempotent (ls : List (Int × GrpcStreamHandle)) (id : Int) :
    (GrpcTransport.unsubscribe ls id).response = .ok (.Grpc (.Unsubscribe id)) ∧
    (GrpcTransport.unsubscribe (GrpcTransport.unsubscribe ls id).listeners id).response
      = .ok (.Grpc (.Unsubscribe id)) ∧
    lookupListener (GrpcTransport.unsubscribe ls id).listeners id = none ∧
    (lookupListener ls id = none → (GrpcTransport.unsubscribe ls id).cancelled = none) ∧
    (∀ h, lookupListener ls id = some h →
      (GrpcTransport.unsubscribe ls id).cancelled = some h) :=
  ⟨rfl, rfl, lookupListener_removeListener ls id, fun h => h, fun _ hh => hh⟩

/-- Witness for the hypotheses of the C8 theorem: unsubscribing an unknown
id on the empty map cancels nothing, and unsubscribing a live id cancels
its handle. -/
theorem grpc_unsubscribe_idempotent_witness :
    (GrpcTransport.unsubscribe [] 5).cancelled = none ∧
    (GrpcTransport.unsubscribe [(7, ⟨1⟩)] 7).cancelled = some ⟨1⟩ :=
  ⟨(grpc_unsubscribe_idempotent [] 5).2.2.2.1 rfl,
   (grpc_unsubscribe_idempotent [(7, ⟨1⟩)] 7).2.2.2.2 ⟨1⟩ rfl⟩

/-- Claim C9: a null `retry_config` pointer defaults to
`max_retries = 1`, an empty `retry_status` list and `retry_delay = 0`, so
a request without a retry configuration still performs exactly two network
send attempts when every attempt fails with a transport I/O error, and
then fails with `ConnectionError`. -/
theorem null_retry_config_defaults :
    NetRequestHttp.retryFromC none
      = { max_retries := 1, retry_status := [], retry_delay := 0 } ∧
    (httpRequest (NetRequestHttp.retryFromC none) (fun _ => .err) (fun _ => none)).1
      = .failure .ConnectionError ∧
    sendCount (httpRequest (NetRequestHttp.retryFromC none)
      (fun _ => .err) (fun _ => none)).2 = 2 :=
  ⟨rfl, rfl, rfl⟩

/-- Claim C10: for every successfully parsed request, `update_config`
returns `Ok` synchronously (so `dart_update_config` hands status `OK`,
100, to the host) regardless of the request kind; when the kind is neither
`InitTor` nor `TorInited`, the spawned task exits with
`InvalidRequestParameters`, which the runtime discards, and no callback is
invoked for that request. -/
theorem update_config_invalid_kind_silent_ok (torInit : Except NetResultStatus Unit)
    (torInited : Bool) (cb : Option Nat) (req : NetRequest)
    (hk : req.kind = .Socket ∨ req.kind = .Grpc ∨ req.kind = .Http) :
    (DartTransporter.update_config torInit torInited cb (some req)).sync = .ok () ∧
    dart_update_config_status
      (DartTransporter.update_config torInit torInited cb (some req)).sync = 100 ∧
    (DartTransporter.update_config torInit torInited cb (some req)).task
      = some (.error .InvalidRequestParameters) ∧
    (DartTransporter.update_config torInit torInited cb (some req)).emissions = [] ∧
    (∀ r : NetRequest,
      (DartTransporter.update_config torInit torInited cb (some r)).sync = .ok ()) := by
  obtain ⟨tid, rid, tout, k⟩ := req
  refine ⟨?_, ?_, ?_, ?_, ?_⟩
  · rcases hk with h | h | h <;> (simp only at h; subst h; rfl)
  · rcases hk with h | h | h <;> (simp only at h; subst h; rfl)
  · rcases hk with h | h | h <;> (simp only at h; subst h; rfl)
  · rcases hk with h | h | h <;> (simp only at h; subst h; rfl)
  · intro r
    obtain ⟨tid2, rid2, tout2, k2⟩ := r
    cases k2 <;> cases torInit <;> cases cb <;> rfl

/-- Witness for the hypothesis of the C10 theorem, at a parsed `Http`-kind
request. -/
theorem update_config_invalid_kind_silent_ok_witness :
    (DartTransporter.update_config (.ok ()) true (some 3)
      (some { transport_id := 1, id := 2, timeout := 3, kind := .Http })).task
      = some (.error .InvalidRequestParameters) ∧
    (DartTransporter.update_config (.ok ()) true (some 3)
      (some { transport_id := 1, id := 2, timeout := 3, kind := .Http })).emissions = [] :=
  ⟨(update_config_invalid_kind_silent_ok (.ok ()) true (some 3)
      { transport_id := 1, id := 2, timeout := 3, kind := .Http }
      (Or.inr (Or.inr rfl))).2.2.1,
   (update_config_invalid_kind_silent_ok (.ok ()) true (some 3)
      { transport_id := 1, id := 2, timeout := 3, kind := .Http }
      (Or.inr (Or.inr rfl))).2.2.2.1⟩

/-- Claim C4, counterexample: at a concrete configuration whose
`global_client` flag is not set and a request URL whose host differs from
the configured host, `HttpTransport::do_request` builds an ephemeral
client and sends the request, while the claim prescribes rejection; no
`MismatchHttpUrl` rejection exists in the implemented routing. -/
theorem alternate_host_not_rejected :
    (HttpTransport.do_request_route configA addrB).toSpec
      ≠ do_request_route_spec configA addrB ∧
    HttpTransport.do_request_route configA addrB
      = .ephemeral (configA.change_addr addrB) ∧
    do_request_route_spec configA addrB = .reject ∧
    configA.http.global_client = false := by
  refine ⟨by decide, by decide, by decide, rfl⟩

/-- Claim C4, amended: for every HTTP request whose URL host differs from
the configured `addr.host`, the transport always builds an ephemeral
client from `change_addr` and sends through it, independently of the
`global_client` flag (which is parsed but never consulted); the stored
configuration is not mutated, and `change_addr` replaces only the address,
copying every other field. -/
theorem alternate_host_always_ephemeral (config : NetConfig) (addr : AddressInfo)
    (h : addr.host ≠ config.addr.host) :
    HttpTransport.do_request_route config addr = .ephemeral (config.change_addr addr) ∧
    (∀ g : Bool,
      HttpTransport.do_request_route
        { config with http := { config.http with global_client := g } } addr
        = .ephemeral (NetConfig.change_addr
            { config with http := { config.http with global_client := g } } addr)) ∧
    (config.change_addr addr).addr = addr ∧
    (config.change_addr addr).mode = config.mode ∧
    (config.change_addr addr).http = config.http ∧
    (config.change_addr addr).protocol = config.protocol ∧
    (config.change_addr addr).tls_mode = config.tls_mode ∧
    (config.change_addr addr).tor_config = config.tor_config ∧
    (config.change_addr addr).encoding = config.encoding := by
  refine ⟨?_, ?_, rfl, rfl, rfl, rfl, rfl, rfl, rfl⟩
  · unfold HttpTransport.do_request_route
    rw [if_pos h]
  · intro g
    unfold HttpTransport.do_request_route
    rw [if_pos h]

/-- Witness for the hypothesis of the amended C4 theorem, at the concrete
mismatching pair of addresses. -/
theorem alternate_host_always_ephemeral_witness :
    HttpTransport.do_request_route configA addrB
      = .ephemeral (configA.change_addr addrB) ∧
    (configA.change_addr addrB).addr = addrB :=
  ⟨(alternate_host_always_ephemeral configA addrB (by decide)).1,
   (alternate_host_always_ephemeral configA addrB (by decide)).2.2.1⟩

/-- Claim C5, counterexample: an interleaving in which the fan-out task
delivers a `Data` event after being spawned but before the main task
registers the handle and has the `StreamId` reply delivered.  The
interleaving satisfies every ordering the source imposes, yet the
`StreamId` reply does not precede the `Data` event. -/
theorem data_may_precede_stream_id :
    validStreamTrace [.spawnFanout, .emitData, .registerHandle, .replyStreamId] ∧
    ¬ eventsBefore [.spawnFanout, .emitData, .registerHandle, .replyStreamId]
        .replyStreamId .emitData := by
  constructor
  · refine ⟨by decide, by decide, by decide⟩
  · decide

/-- Claim C5, amended: `GrpcTransport::stream` spawns the fan-out task
before registering the handle and before returning the `StreamId` reply,
and nothing orders the fan-out publication after the registration or the
reply delivery, so an interleaving exists in which a `Data` event for the
stream is delivered before the `StreamId` reply. -/
theorem stream_spawn_precedes_registration :
    streamMainActions = [.spawnFanout, .registerHandle, .replyStreamId] ∧
    (∃ t, validStreamTrace t ∧ eventsBefore t .emitData .replyStreamId) :=
  ⟨rfl, ⟨[.spawnFanout, .emitData, .registerHandle, .replyStreamId],
    ⟨by decide, by decide, by decide⟩, by decide⟩⟩

/-- Closed form of the transport-id allocator: the id handed out by the
`n`-th call is `258` plus `n` modulo the number of values in the wrapping
range `258 ..= u32::MAX`. -/
theorem transportIdAt_closed_form (n : Nat) :
    transportIdAt n = 258 + n % transportIdPeriod := by
  induction n with
  | zero => rfl
  | succ n ih =>
    have h : transportIdAt (n + 1) = allocStep (transportIdAt n) := rfl
    rw [h, ih]
    unfold allocStep U32_MAX transportIdPeriod
    split <;> omega

/-- Claim C6, counterexample: the transport id handed out by call number
`4294967038` equals the one handed out by call number `0` (both are
`258`), so ids are reused within an instance lifetime once the counter
wraps. -/
theorem transport_id_reused_after_wrap :
    transportIdAt 4294967038 = transportIdAt 0 ∧ transportIdAt 0 = 258 := by
  constructor
  · rw [transportIdAt_closed_form, transportIdAt_closed_form]
    decide
  · rfl

/-- Claim C6, amended: transport-id allocation is monotonic starting at
`258` and wraps on u32 overflow back to `258`; ids are pairwise distinct
(indeed strictly increasing) within the first `4294967038` allocations of
an instance, and the sequence repeats with exactly that period, so ids are
reused after `4294967038` allocations. -/
theorem transport_id_distinct_within_period (m n : Nat) (hmn : m < n)
    (hn : n < transportIdPeriod) :
    transportIdAt m < transportIdAt n ∧
    transportIdAt 0 = 258 ∧
    (∀ k, transportIdAt (k + transportIdPeriod) = transportIdAt k) := by
  refine ⟨?_, rfl, ?_⟩
  · rw [transportIdAt_closed_form, transportIdAt_closed_form]
    have hm2 : m % transportIdPeriod = m := Nat.mod_eq_of_lt (lt_trans hmn hn)
    have hn2 : n % transportIdPeriod = n := Nat.mod_eq_of_lt hn
    omega
  · intro k
    rw [transportIdAt_closed_form, transportIdAt_closed_form, Nat.add_mod_right]

/-- Witness for the hypotheses of the amended C6 theorem: the first two
allocated ids are strictly increasing and the first is 258. -/
theorem transport_id_distinct_within_period_witness :
    transportIdAt 0 < transportIdAt 1 ∧ transportIdAt 0 = 258 :=
  ⟨(transport_id_distinct_within_period 0 1 (by decide) (by decide)).1,
   (transport_id_distinct_within_period 0 1 (by decide) (by decide)).2.1⟩

/-- When no nonempty chunk segment completes a parse, `is_json` emits
nothing and accumulates the whole chunk. -/
theorem is_json_none (jsonOk : List Nat → Bool) :
    ∀ (chunk buffer : List Nat),
      (∀ p q, chunk = p ++ q → p ≠ [] → jsonOk (buffer ++ p) = false) →
      StreamBuffer.is_json jsonOk buffer chunk = (none, buffer ++ chunk) := by
  intro chunk
  induction chunk with
  | nil => intro buffer _; simp [StreamBuffer.is_json]
  | cons b rest ih =>
    intro buffer h
    have hb : jsonOk (buffer ++ [b]) = false := h [b] rest rfl (by simp)
    simp only [StreamBuffer.is_json, hb]
    rw [if_neg (by simp)]
    rw [ih (buffer ++ [b]) ?_]
    · simp
    · intro p q hpq hp
      have h2 := h (b :: p) q (by simp [hpq]) (by simp)
      simpa [List.append_assoc] using h2

/-- When some shortest nonempty initial segment of the chunk completes a
parse, `is_json` emits the buffer extended by exactly that segment, resets
the buffer, and discards the remaining bytes of the chunk. -/
theorem is_json_some (jsonOk : List Nat → Bool) :
    ∀ (p buffer q : List Nat), p ≠ [] → jsonOk (buffer ++ p) = true →
      (∀ p1 q1, p = p1 ++ q1 → p1 ≠ [] → q1 ≠ [] → jsonOk (buffer ++ p1) = false) →
      StreamBuffer.is_json jsonOk buffer (p ++ q) = (some (buffer ++ p), []) := by
  intro p
  induction p with
  | nil => intro buffer q hne; exact absurd rfl hne
  | cons b p2 ih =>
    intro buffer q _ hp hmin
    by_cases h2 : p2 = []
    · subst h2
      simp only [List.cons_append, List.nil_append, StreamBuffer.is_json]
      rw [if_pos hp]
    · have hb : jsonOk (buffer ++ [b]) = false :=
        hmin [b] p2 rfl (by simp) h2
      simp only [List.cons_append, StreamBuffer.is_json, hb]
      rw [if_neg (by simp)]
      simp only [List.append_eq]
      rw [ih (buffer ++ [b]) q h2 ?_ ?_]
      · simp
      · rw [List.append_assoc]
        exact hp
      · intro p1 q1 hsplit hp1 hq1
        have h3 := hmin (b :: p1) q1 (by simp [hsplit]) (by simp) hq1
        simpa [List.append_assoc] using h3

/-- Claim C3, counterexample: in Json mode, with the JSON parser applied
to the digit-only document fragment, feeding the single chunk "77" (bytes
55, 55) to an empty buffer emits "7" after the first byte and discards
the second byte, while the claim prescribes emitting the whole accumulated
chunk "77" (which parses as one JSON document); so emission is not
governed by whether the whole accumulated buffer parses after the chunk is
appended. -/
theorem json_buffer_emits_on_byte_not_chunk :
    StreamBuffer.add digitJsonDoc (fun _ => none)
      { encoding := .Json, buffer := [] } [55, 55]
      ≠ addJsonSpec digitJsonDoc { encoding := .Json, buffer := [] } [55, 55] ∧
    (StreamBuffer.add digitJsonDoc (fun _ => none)
      { encoding := .Json, buffer := [] } [55, 55]).1 = some [55] ∧
    (addJsonSpec digitJsonDoc { encoding := .Json, buffer := [] } [55, 55]).1
      = some [55, 55] ∧
    digitJsonDoc [55] = true ∧ digitJsonDoc [55, 55] = true := by
  refine ⟨by decide, by decide, by decide, rfl, rfl⟩

/-- Claim C3, amended: in Json mode the buffer appends the bytes of a
chunk one at a time, attempting after every byte to decode the accumulated
bytes as one UTF-8 JSON document; at the first byte at which the
accumulated buffer parses it emits that buffer and resets, discarding the
remaining bytes of the chunk; when no such byte is reached it emits
nothing and keeps accumulating. -/
theorem json_buffer_shortest_parse (jsonOk : List Nat → Bool)
    (jsonToCbor : List Nat → Option (List Nat)) (buffer chunk : List Nat) :
    ((∀ p q, chunk = p ++ q → p ≠ [] → jsonOk (buffer ++ p) = false) →
      StreamBuffer.add jsonOk jsonToCbor { encoding := .Json, buffer := buffer } chunk
        = (none, { encoding := .Json, buffer := buffer ++ chunk })) ∧
    (∀ p q, chunk = p ++ q → p ≠ [] → jsonOk (buffer ++ p) = true →
      (∀ p1 q1, p = p1 ++ q1 → p1 ≠ [] → q1 ≠ [] → jsonOk (buffer ++ p1) = false) →
      StreamBuffer.add jsonOk jsonToCbor { encoding := .Json, buffer := buffer } chunk
        = (some (buffer ++ p), { encoding := .Json, buffer := [] })) := by
  constructor
  · intro h
    simp [StreamBuffer.add, is_json_none jsonOk chunk buffer h]
  · intro p q hpq hne hp hmin
    subst hpq
    simp [StreamBuffer.add, is_json_some jsonOk p buffer q hne hp hmin]

/-- Witness for the hypotheses of the amended C3 theorem: an incomplete
digit-free fragment accumulates without emission, and the chunk "77" on an
empty buffer emits at its first byte. -/
theorem json_buffer_shortest_parse_witness :
    StreamBuffer.add digitJsonDoc (fun _ => none)
      { encoding := .Json, buffer := [] } [32]
      = (none, { encoding := .Json, buffer := [32] }) ∧
    StreamBuffer.add digitJsonDoc (fun _ => none)
      { encoding := .Json, buffer := [] } [55, 55]
      = (some [55], { encoding := .Json, buffer := [] }) := by
  constructor
  · refine (json_buffer_shortest_parse digitJsonDoc (fun _ => none) [] [32]).1 ?_
    intro p q hpq hp
    cases p with
    | nil => exact absurd rfl hp
    | cons x xs =>
      simp only [List.cons_append] at hpq
      injection hpq with h1 h2
      obtain ⟨hxs, hq⟩ := List.append_eq_nil.mp h2.symm
      subst h1
      subst hxs
      decide
  · refine (json_buffer_shortest_parse digitJsonDoc (fun _ => none) [] [55, 55]).2
      [55] [55] rfl (by decide) (by decide) ?_
    intro p1 q1 hsplit hp1 hq1
    exfalso
    cases p1 with
    | nil => exact hp1 rfl
    | cons x xs =>
      simp only [List.cons_append] at hsplit
      injection hsplit with h1 h2
      obtain ⟨hxs, hq⟩ := List.append_eq_nil.mp h2.symm
      exact hq1 hq

/-- Counting sends after a send event. -/
theorem sendCount_send (a : Nat) (tr : List HttpEvent) :
    sendCount (.send a :: tr) = sendCount tr + 1 := by
  simp [sendCount, List.filter_cons, HttpEvent.isSend]

/-- Counting sends after a sleep event. -/
theorem sendCount_sleep (tr : List HttpEvent) :
    sendCount (.sleep :: tr) = sendCount tr := by
  simp [sendCount, List.filter_cons, HttpEvent.isSend]

/-- Counting sends after a reconnect event. -/
theorem sendCount_reconnect (tr : List HttpEvent) :
    sendCount (.reconnect :: tr) = sendCount tr := by
  simp [sendCount, List.filter_cons, HttpEvent.isSend]

/-- Counting sends of the empty trace. -/
theorem sendCount_nil : sendCount [] = 0 := rfl

/-- Every iteration of the retry loop that still has fuel emits a send
event, so its trace contains a send. -/
theorem httpRequestLoop_any_send (cfg : NetHttpRetryConfig) (sendAt : Nat → SendOutcome)
    (reconnectAt : Nat → Option NetResultStatus) (fuel attempt : Nat) :
    ((httpRequestLoop cfg sendAt reconnectAt (fuel + 1) attempt).2).any HttpEvent.isSend
      = true := by
  cases hs : sendAt attempt with
  | ok status =>
    by_cases hr : cfg.retry_status.contains status ∧ attempt < cfg.max_retries
    · simp only [httpRequestLoop, hs]
      rw [if_pos hr]
      simp [List.any_cons, HttpEvent.isSend]
    · simp only [httpRequestLoop, hs]
      rw [if_neg hr]
      simp [List.any_cons, HttpEvent.isSend]
  | err =>
    by_cases hm : cfg.max_retries ≤ attempt
    · simp only [httpRequestLoop, hs]
      rw [if_pos hm]
      simp [List.any_cons, HttpEvent.isSend]
    · cases hrc : reconnectAt attempt with
      | some e =>
        simp only [httpRequestLoop, hs, hrc]
        rw [if_neg hm]
        simp [List.any_cons, HttpEvent.isSend]
      | none =>
        simp only [httpRequestLoop, hs, hrc]
        rw [if_neg hm]
        simp [List.any_cons, HttpEvent.isSend]

/-- The retry loop performs at most `fuel` send attempts. -/
theorem httpRequestLoop_sendCount_le (cfg : NetHttpRetryConfig) (sendAt : Nat → SendOutcome)
    (reconnectAt : Nat → Option NetResultStatus) :
    ∀ fuel attempt,
      sendCount (httpRequestLoop cfg sendAt reconnectAt fuel attempt).2 ≤ fuel := by
  intro fuel
  induction fuel with
  | zero => intro attempt; simp [httpRequestLoop, sendCount_nil]
  | succ f ih =>
    intro attempt
    cases hs : sendAt attempt with
    | ok status =>
      by_cases hr : cfg.retry_status.contains status ∧ attempt < cfg.max_retries
      · have := ih (attempt + 1)
        simp only [httpRequestLoop, hs]
        rw [if_pos hr]
        simp only [sendCount_send, sendCount_sleep]
        omega
      · simp only [httpRequestLoop, hs]
        rw [if_neg hr]
        simp only [sendCount_send, sendCount_nil]
        omega
    | err =>
      by_cases hm : cfg.max_retries ≤ attempt
      · simp only [httpRequestLoop, hs]
        rw [if_pos hm]
        simp only [sendCount_send, sendCount_nil]
        omega
      · cases hrc : reconnectAt attempt with
        | some e =>
          simp only [httpRequestLoop, hs, hrc]
          rw [if_neg hm]
          simp only [sendCount_send, sendCount_reconnect, sendCount_nil]
          omega
        | none =>
          have := ih (attempt + 1)
          simp only [httpRequestLoop, hs, hrc]
          rw [if_neg hm]
          simp only [sendCount_send, sendCount_reconnect, sendCount_sleep]
          omega

/-- In every trace of the retry loop entered with
`fuel = max_retries + 1 - attempt`, each sleep is followed by a later
send: sleeps only separate two consecutive attempts. -/
theorem httpRequestLoop_sleeps (cfg : NetHttpRetryConfig) (sendAt : Nat → SendOutcome)
    (reconnectAt : Nat → Option NetResultStatus) :
    ∀ fuel attempt, attempt + fuel = cfg.max_retries + 1 →
      sleepsBetweenSends (httpRequestLoop cfg sendAt reconnectAt fuel attempt).2 = true := by
  intro fuel
  induction fuel with
  | zero => intro a _; rfl
  | succ f ih =>
    intro a h
    cases hs : sendAt a with
    | ok status =>
      by_cases hr : cfg.retry_status.contains status ∧ a < cfg.max_retries
      · simp only [httpRequestLoop, hs]
        rw [if_pos hr]
        obtain ⟨f2, rfl⟩ : ∃ f2, f = f2 + 1 := ⟨f - 1, by omega⟩
        simp only [sleepsBetweenSends]
        rw [httpRequestLoop_any_send cfg sendAt reconnectAt f2 (a + 1),
          ih (a + 1) (by omega)]
        rfl
      · simp only [httpRequestLoop, hs]
        rw [if_neg hr]
        rfl
    | err =>
      by_cases hm : cfg.max_retries ≤ a
      · simp only [httpRequestLoop, hs]
        rw [if_pos hm]
        rfl
      · cases hrc : reconnectAt a with
        | some e =>
          simp only [httpRequestLoop, hs, hrc]
          rw [if_neg hm]
          rfl
        | none =>
          simp only [httpRequestLoop, hs, hrc]
          rw [if_neg hm]
          obtain ⟨f2, rfl⟩ : ∃ f2, f = f2 + 1 := ⟨f - 1, by omega⟩
          simp only [sleepsBetweenSends]
          rw [httpRequestLoop_any_send cfg sendAt reconnectAt f2 (a + 1),
            ih (a + 1) (by omega)]
          rfl

/-- When every attempt receives a response whose status is in
`retry_status`, the loop retries exactly while `attempt < max_retries`,
performs one send per remaining iteration, and finally returns that
response. -/
theorem httpRequestLoop_const_retry (cfg : NetHttpRetryConfig) (s : Nat)
    (sendAt : Nat → SendOutcome) (reconnectAt : Nat → Option NetResultStatus)
    (hsend : ∀ n, sendAt n = .ok s) (hst : cfg.retry_status.contains s = true) :
    ∀ fuel attempt, attempt + fuel = cfg.max_retries + 1 → 1 ≤ fuel →
      (httpRequestLoop cfg sendAt reconnectAt fuel attempt).1 = .response s ∧
      sendCount (httpRequestLoop cfg sendAt reconnectAt fuel attempt).2 = fuel := by
  intro fuel
  induction fuel with
  | zero => intro a _ h1; omega
  | succ f ih =>
    intro a h _
    by_cases hf : f = 0
    · subst hf
      simp only [httpRequestLoop, hsend a]
      rw [if_neg (fun hc => absurd hc.2 (by omega))]
      exact ⟨rfl, by simp [sendCount_send, sendCount_nil]⟩
    · have hlt : a < cfg.max_retries := by omega
      simp only [httpRequestLoop, hsend a]
      rw [if_pos ⟨hst, hlt⟩]
      obtain ⟨h1, h2⟩ := ih (a + 1) (by omega) (by omega)
      exact ⟨h1, by simp [sendCount_send, sendCount_sleep, h2]⟩

/-- When every attempt fails with a transport I/O error and every
reconnect succeeds, the loop performs one send per remaining iteration and
the final attempt yields `ConnectionError`. -/
theorem httpRequestLoop_const_err (cfg : NetHttpRetryConfig)
    (sendAt : Nat → SendOutcome) (reconnectAt : Nat → Option NetResultStatus)
    (hsend : ∀ n, sendAt n = .err) (hrc : ∀ n, reconnectAt n = none) :
    ∀ fuel attempt, attempt + fuel = cfg.max_retries + 1 → 1 ≤ fuel →
      (httpRequestLoop cfg sendAt reconnectAt fuel attempt).1
        = .failure .ConnectionError ∧
      sendCount (httpRequestLoop cfg sendAt reconnectAt fuel attempt).2 = fuel := by
  intro fuel
  induction fuel with
  | zero => intro a _ h1; omega
  | succ f ih =>
    intro a h _
    by_cases hf : f = 0
    · subst hf
      simp only [httpRequestLoop, hsend a]
      rw [if_pos (by omega : cfg.max_retries ≤ a)]
      exact ⟨rfl, by simp [sendCount_send, sendCount_nil]⟩
    · simp only [httpRequestLoop, hsend a, hrc a]
      rw [if_neg (by omega : ¬ cfg.max_retries ≤ a)]
      obtain ⟨h1, h2⟩ := ih (a + 1) (by omega) (by omega)
      exact ⟨h1, by simp [sendCount_send, sendCount_reconnect, sendCount_sleep, h2]⟩

/-- Claim C2: one `HttpClient::request` with `max_retries = N` performs at
most `N + 1` network send attempts; every sleep in its trace lies between
two attempts, never after the final one; when every attempt returns a
status in `retry_status` the loop retries exactly while `attempt < N`
(performing exactly `N + 1` sends and returning the last response); and
when every attempt fails with a transport I/O error (reconnects
succeeding), the final attempt yields `ConnectionError` after exactly
`N + 1` sends. -/
theorem http_retry_contract (cfg : NetHttpRetryConfig) (sendAt : Nat → SendOutcome)
    (reconnectAt : Nat → Option NetResultStatus) (s : Nat) :
    sendCount (httpRequest cfg sendAt reconnectAt).2 ≤ cfg.max_retries + 1 ∧
    sleepsBetweenSends (httpRequest cfg sendAt reconnectAt).2 = true ∧
    (cfg.retry_status.contains s = true → (∀ n, sendAt n = .ok s) →
      (httpRequest cfg sendAt reconnectAt).1 = .response s ∧
      sendCount (httpRequest cfg sendAt reconnectAt).2 = cfg.max_retries + 1) ∧
    ((∀ n, sendAt n = .err) → (∀ n, reconnectAt n = none) →
      (httpRequest cfg sendAt reconnectAt).1 = .failure .ConnectionError ∧
      sendCount (httpRequest cfg sendAt reconnectAt).2 = cfg.max_retries + 1) := by
  refine ⟨?_, ?_, ?_, ?_⟩
  · exact httpRequestLoop_sendCount_le cfg sendAt reconnectAt (cfg.max_retries + 1) 0
  · exact httpRequestLoop_sleeps cfg sendAt reconnectAt (cfg.max_retries + 1) 0 (by omega)
  · intro hst hsend
    exact httpRequestLoop_const_retry cfg s sendAt reconnectAt hsend hst
      (cfg.max_retries + 1) 0 (by omega) (by omega)
  · intro hsend hrc
    exact httpRequestLoop_const_err cfg sendAt reconnectAt hsend hrc
      (cfg.max_retries + 1) 0 (by omega) (by omega)

/-- Witness for the hypotheses of the C2 theorem: with
`max_retries = 2` and `retry_status = [503]`, a server that always
returns 503 produces three attempts and the final 503 response, and with
`max_retries = 1` a server that always fails produces `ConnectionError`. -/
theorem http_retry_contract_witness :
    (httpRequest { max_retries := 2, retry_status := [503], retry_delay := 10 }
      (fun _ => .ok 503) (fun _ => none)).1 = .response 503 ∧
    sendCount (httpRequest { max_retries := 2, retry_status := [503], retry_delay := 10 }
      (fun _ => .ok 503) (fun _ => none)).2 = 3 ∧
    (httpRequest { max_retries := 1, retry_status := [], retry_delay := 0 }
      (fun _ => .err) (fun _ => none)).1 = .failure .ConnectionError :=
  ⟨((http_retry_contract { max_retries := 2, retry_status := [503], retry_delay := 10 }
      (fun _ => .ok 503) (fun _ => none) 503).2.2.1 (by decide) (fun _ => rfl)).1,
   ((http_retry_contract { max_retries := 2, retry_status := [503], retry_delay := 10 }
      (fun _ => .ok 503) (fun _ => none) 503).2.2.1 (by decide) (fun _ => rfl)).2,
   ((http_retry_contract { max_retries := 1, retry_status := [], retry_delay := 0 }
      (fun _ => .err) (fun _ => none) 0).2.2.2 (fun _ => rfl) (fun _ => rfl)).1⟩

/-- Claim C7: with protocol preference `Http2`, whenever the stream is
established but its negotiated ALPN is not `"h2"` (including the non-TLS
case, where `alpn_protocol()` is `None`), `AutoSendRequest::connect` fails
with `Http2ConctionFailed` before any handshake, and the enclosing
`HttpClient::request` propagates that failure from `conneect_inner`
before the retry loop, so no request is sent at all. -/
theorem http2_alpn_enforcement (alpn : Option (List Nat))
    (h2Handshake h1Handshake : Except NetResultStatus Unit)
    (cfg : NetHttpRetryConfig) (sendAt : Nat → SendOutcome)
    (reconnectAt : Nat → Option NetResultStatus)
    (h : alpn ≠ some h2Alpn) :
    AutoSendRequest.connect (.ok alpn) h2Handshake h1Handshake (some .Http2)
      = .error .Http2ConctionFailed ∧
    HttpClient.sendWith
      (AutoSendRequest.connect (.ok alpn) h2Handshake h1Handshake (some .Http2))
      cfg sendAt reconnectAt = (.failure .Http2ConctionFailed, []) := by
  have hc : AutoSendRequest.connect (.ok alpn) h2Handshake h1Handshake (some .Http2)
      = .error .Http2ConctionFailed := by
    show (if alpn ≠ some h2Alpn then
            Except.error NetResultStatus.Http2ConctionFailed
          else
            match h2Handshake with
            | .ok _ => Except.ok AutoSender.http2
            | .error _ => Except.error NetResultStatus.ConnectionError)
        = Except.error NetResultStatus.Http2ConctionFailed
    rw [if_pos h]
  refine ⟨hc, ?_⟩
  rw [hc]
  rfl

/-- Witness for the hypothesis of the C7 theorem, at the non-TLS case
where the ALPN accessor returns `None`. -/
theorem http2_alpn_enforcement_witness :
    HttpClient.sendWith
      (AutoSendRequest.connect (.ok none) (.ok ()) (.ok ()) (some .Http2))
      NetHttpRetryConfig.default (fun _ => .ok 200) (fun _ => none)
      = (.failure .Http2ConctionFailed, []) :=
  (http2_alpn_enforcement none (.ok ()) (.ok ())
    NetHttpRetryConfig.default (fun _ => .ok 200) (fun _ => none) (by decide)).2

/-- Emissions of a run decompose over concatenation of action sequences. -/
theorem regRun_append (s : RegState) (l1 l2 : List RegAction) :
    regRun s (l1 ++ l2)
      = ((regRun (regRun s l1).1 l2).1,
         (regRun s l1).2 ++ (regRun (regRun s l1).1 l2).2) := by
  induction l1 generalizing s with
  | nil => simp [regRun]
  | cons a rest ih =>
    simp [regRun, ih, List.append_assoc]

/-- Once the callback slot is empty it stays empty, and no action emits
an invocation. -/
theorem regRun_silent (s : RegState) (es : List RegAction) (h : s.callback = none) :
    (regRun s es).2 = [] := by
  induction es generalizing s with
  | nil => rfl
  | cons a rest ih =>
    cases a with
    | closeAll =>
      simp [regRun, regStep, ih { callback := none, transports := [] } rfl]
    | deliver r =>
      simp [regRun, regStep, h, ih s h]

/-- Claim C1: after the `close_all` of an instance, no callback bound to
that instance is invoked again.  In every sequence of atomic actions on
one instance, every invocation happens before the `closeAll` action;
`close_all` itself clears the callback slot, drains the transports and
emits nothing; and every delivery path that finds the slot empty drops its
response. -/
theorem close_instance_silences_callback (s : RegState) (pre post : List RegAction) :
    (regRun s (pre ++ .closeAll :: post)).2 = (regRun s pre).2 ∧
    regStep s .closeAll = ({ callback := none, transports := [] }, []) ∧
    (∀ (s0 : RegState) (r : NetResponse), s0.callback = none →
      regStep s0 (.deliver r) = (s0, [])) := by
  refine ⟨?_, rfl, ?_⟩
  · rw [regRun_append]
    have hpost : (regRun (regRun s pre).1 (RegAction.closeAll :: post)).2 = [] := by
      simp [regRun, regStep,
        regRun_silent { callback := none, transports := [] } post rfl]
    rw [hpost]
    simp
  · intro s0 r h
    simp [regStep, h]

/-- Witness for the hypothesis of the C1 theorem: a delivery that finds
the slot empty after a close emits nothing, and a concrete run with a
delivery scheduled after the close emits only the invocation from before
the close. -/
theorem close_instance_silences_callback_witness :
    (regRun { callback := some 5, transports := [7] }
      ([.deliver { transport_id := 7, request_id := 1, response := .Socket }] ++
        .closeAll ::
        [.deliver { transport_id := 7, request_id := 2, response := .TransportClosed }])).2
      = (regRun { callback := some 5, transports := [7] }
          [.deliver { transport_id := 7, request_id := 1, response := .Socket }]).2 ∧
    regStep { callback := none, transports := [] }
      (.deliver { transport_id := 7, request_id := 2, response := .TransportClosed })
      = ({ callback := none, transports := [] }, []) :=
  ⟨(close_instance_silences_callback { callback := some 5, transports := [7] }
      [.deliver { transport_id := 7, request_id := 1, response := .Socket }]
      [.deliver { transport_id := 7, request_id := 2, response := .TransportClosed }]).1,
   (close_instance_silences_callback { callback := some 5, transports := [7] }
      [.deliver { transport_id := 7, request_id := 1, response := .Socket }]
      [.deliver { transport_id := 7, request_id := 2, response := .TransportClosed }]).2.2
      { callback := none, transports := [] }
      { transport_id := 7, request_id := 2, response := .TransportClosed } rfl⟩

end NetSdk
